import Mathlib

/-!
Shallow embedding of two zenml source files:
  * `src/zenml/new/steps/step_decorator.py` — the `step` decorator/factory
    (`step`, `inner_decorator`) that builds a step instance from an
    entrypoint function plus keyword configuration;
  * `src/zenml/integrations/whylogs/whylogs_utils.py` — the
    `WhylogsContext` resource-scoped step context
    (`get_whylogs_session`, `log_dataframe`).

Python `Optional[T]` becomes `Option T`; a Python `dict` of string tags
becomes an association list with first-match lookup and Python-`dict`
update/`setdefault` semantics; in-place mutation of a caller-supplied
dict is made explicit by returning the caller's mapping as it stands
after the call.  Opaque external collaborators (pandas dataframes,
whylogs sessions/loggers/profiles, settings payloads, materializer and
hook references) are carried as inert data that the embedded code never
inspects, mirroring how the Python code only forwards them.
-/

/-- Python truthiness-based `x or y` for `Optional[str]` values:
`None` and the empty string fall through to the fallback. -/
def pyOrStr (x : Option String) (y : String) : String :=
  match x with
  | none => y
  | some s => if s = "" then y else s

/-- A string-keyed tag dictionary, as an association list in insertion
order (the representation of a Python `dict` whose keys are unique). -/
abbrev Tags := List (String × String)

/-- First-match lookup, `d.get(k)` / `d[k]`. -/
def dictGet (d : Tags) (k : String) : Option String :=
  match d with
  | [] => none
  | (k0, v0) :: rest => if k0 = k then some v0 else dictGet rest k

/-- Python `d[k] = v`: update the value in place (keeping the entry's
position) when the key is present, append the pair otherwise. -/
def dictSet (d : Tags) (k v : String) : Tags :=
  match d with
  | [] => [(k, v)]
  | (k0, v0) :: rest =>
    if k0 = k then (k, v) :: rest else (k0, v0) :: dictSet rest k v

/-- Python `d.setdefault(k, v)`: leave `d` unchanged when the key is
present, append the pair otherwise. -/
def dictSetdefault (d : Tags) (k v : String) : Tags :=
  match d with
  | [] => [(k, v)]
  | (k0, v0) :: rest =>
    if k0 = k then (k0, v0) :: rest else (k0, v0) :: dictSetdefault rest k v

/-- Python `tags or dict()` for `Optional[Dict[str, str]]`: `None` and
the empty dict are replaced by a fresh empty dict. -/
def pyOrTags (x : Option Tags) : Tags :=
  match x with
  | none => []
  | some t => t

/-- The declared type of one entrypoint parameter, as far as the caching
default policy is concerned: either it is `StepContext` (or a class
derived from it, such as `WhylogsContext`), or anything else. -/
inductive ParamType where
  | stepContext
  | other
deriving DecidableEq, Repr

/-- The aspects of a Python function object the step factory consumes:
`__name__`, `__module__`, `__doc__`, the declared parameter types, and
an opaque stand-in for its runtime behavior (`body`), which the factory
stores but never evaluates. -/
structure Func where
  name : String
  module : String
  doc : Option String
  params : List ParamType
  body : Nat
deriving DecidableEq, Repr

/-- An opaque materializer / output-materializers specification
(forwarded verbatim by the decorator, never inspected). -/
abbrev MaterializerSpec := String

/-- An opaque hook specification (forwarded verbatim). -/
abbrev HookSpec := String

/-- Opaque per-component settings payloads (forwarded verbatim). -/
abbrev SettingsDict := List (String × String)

/-- Opaque extra metadata (forwarded verbatim). -/
abbrev ExtraDict := List (String × String)

/-- The keyword configuration accepted by the `step` decorator
(`step_decorator.py`, lines 72-85). -/
structure StepConfig where
  name : Option String
  enable_cache : Option Bool
  enable_artifact_metadata : Option Bool
  enable_artifact_visualization : Option Bool
  experiment_tracker : Option String
  step_operator : Option String
  output_materializers : Option MaterializerSpec
  settings : Option SettingsDict
  extra : Option ExtraDict
  on_failure : Option HookSpec
  on_success : Option HookSpec
deriving DecidableEq, Repr

/-- All keyword arguments left at their `None` defaults, as in a bare
`@step` application. -/
def defaultStepConfig : StepConfig :=
  { name := none
    enable_cache := none
    enable_artifact_metadata := none
    enable_artifact_visualization := none
    experiment_tracker := none
    step_operator := none
    output_materializers := none
    settings := none
    extra := none
    on_failure := none
    on_success := none }

/-- Modelled from the spec: the resolution of an unset `enable_cache`
into a concrete caching policy happens in the `BaseStep` constructor,
which is not among the sources here (the decorator forwards
`enable_cache` verbatim, line 139).  Per the spec and the decorator's
own docstring: an explicit value is used verbatim; otherwise caching
defaults to enabled unless the entrypoint declares a parameter typed as
(or derived from) `StepContext`, in which case it defaults to
disabled. -/
def resolve_caching_policy (enable_cache : Option Bool) (func : Func) : Bool :=
  match enable_cache with
  | some b => b
  | none => !(func.params.contains ParamType.stepContext)

/-- The step instance built by the decorator: the dynamically created
class stores `entrypoint`, `__module__` and `__doc__`
(`step_decorator.py`, lines 127-135), and the constructor call forwards
the configuration (lines 137-149).  `caching_policy` is the resolved
policy of the `BaseStep` constructor, modelled from the spec via
`resolve_caching_policy`. -/
structure BaseStep where
  entrypoint : Func
  module : String
  doc : Option String
  name : String
  enable_cache : Option Bool
  caching_policy : Bool
  enable_artifact_metadata : Option Bool
  enable_artifact_visualization : Option Bool
  experiment_tracker : Option String
  step_operator : Option String
  output_materializers : Option MaterializerSpec
  settings : Option SettingsDict
  extra : Option ExtraDict
  on_failure : Option HookSpec
  on_success : Option HookSpec
deriving DecidableEq, Repr

/-- `inner_decorator` (`step_decorator.py`, lines 124-151): build the
step instance from the function, with `name=name or func.__name__`. -/
def inner_decorator (cfg : StepConfig) (func : Func) : BaseStep :=
  { entrypoint := func
    module := func.module
    doc := func.doc
    name := pyOrStr cfg.name func.name
    enable_cache := cfg.enable_cache
    caching_policy := resolve_caching_policy cfg.enable_cache func
    enable_artifact_metadata := cfg.enable_artifact_metadata
    enable_artifact_visualization := cfg.enable_artifact_visualization
    experiment_tracker := cfg.experiment_tracker
    step_operator := cfg.step_operator
    output_materializers := cfg.output_materializers
    settings := cfg.settings
    extra := cfg.extra
    on_failure := cfg.on_failure
    on_success := cfg.on_success }

/-- The two possible results of calling `step`: a step instance (when a
function was passed directly) or a function-accepting builder. -/
inductive StepCallResult where
  | stepInstance (s : BaseStep)
  | builder (b : Func → BaseStep)

/-- `step` (`step_decorator.py`, lines 72-156): with `_func is None`
return `inner_decorator` itself, otherwise apply it to `_func`. -/
def step (fn : Option Func) (cfg : StepConfig) : StepCallResult :=
  match fn with
  | none => StepCallResult.builder (inner_decorator cfg)
  | some g => StepCallResult.stepInstance (inner_decorator cfg g)

/-- Apply a `step` call result to a function: a builder is applied, a
ready step instance is returned as-is. -/
def applyStepResult (r : StepCallResult) (func : Func) : BaseStep :=
  match r with
  | StepCallResult.stepInstance s => s
  | StepCallResult.builder b => b func

/-- A whylogs `Session` as constructed by `get_whylogs_session`
(`whylogs_utils.py`, lines 70-77): project and pipeline names plus the
list of attached writers (output sinks). -/
structure Session where
  project : String
  pipeline : String
  writers : List String
deriving DecidableEq, Repr

/-- A `WhylogsContext` instance: the `step_name` identity inherited from
`StepContext` (external base class) and the `_session` slot, absent
until the first `get_whylogs_session` call. -/
structure WhylogsContext where
  step_name : String
  _session : Option Session
deriving DecidableEq, Repr

/-- Result of `get_whylogs_session`: the returned session, the context
state after the call, and the number of `Session(...)` constructor
evaluations the call performed (instrumentation for the one-shot
initialization property). -/
structure GetSessionResult where
  session : Session
  ctx : WhylogsContext
  constructions : Nat
deriving DecidableEq, Repr

/-- `get_whylogs_session` (`whylogs_utils.py`, lines 48-79): return the
stored session if present; otherwise construct
`Session(project=step_name, pipeline=step_name, writers=[])`, store it
in `self._session` and return it. -/
def get_whylogs_session (ctx : WhylogsContext) : GetSessionResult :=
  match ctx._session with
  | some s => { session := s, ctx := ctx, constructions := 0 }
  | none =>
    let s : Session :=
      { project := ctx.step_name, pipeline := ctx.step_name, writers := [] }
    { session := s
      ctx := { ctx with _session := some s }
      constructions := 1 }

/-- An opaque pandas dataframe: carried, never inspected. -/
structure DataFrame where
  raw : Nat
deriving DecidableEq, Repr

/-- An opaque timestamp (`datetime.datetime`). -/
abbrev Timestamp := Nat

/-- The whylogs `DatasetProfile` returned by `logger.close()`: the
logger was opened on the session, scoped to the dataset name, timestamp
and finalized tags, and was fed the dataframe. -/
structure DatasetProfile where
  session : Session
  dataset_name : String
  dataset_timestamp : Option Timestamp
  tags : Tags
  data : DataFrame
deriving DecidableEq, Repr

/-- Result of `log_dataframe`: the context state after the call, the
returned profile, and the caller's tag mapping as it stands after the
call (`callerTags`).  In the Python source the local `tags` aliases the
caller's dict exactly when the caller passed a non-empty dict
(`tags = tags or dict()`, line 107), so the subsequent in-place
`tags["zenml.step"] = ...` and `tags.setdefault(...)` mutate the
caller's mapping in that case and only that case. -/
structure LogDataframeResult where
  ctx : WhylogsContext
  profile : DatasetProfile
  callerTags : Option Tags
deriving DecidableEq, Repr

/-- `log_dataframe` (`whylogs_utils.py`, lines 81-120): obtain the
session, default `dataset_name` to the step name, default the tags to a
fresh dict, force-set `tags["zenml.step"]`, `setdefault` the
`"datasetId"` tag, then open a logger scoped to
`(dataset_name, dataset_timestamp, tags)`, feed it the dataframe and
close it into a profile. -/
def log_dataframe (ctx : WhylogsContext) (df : DataFrame)
    (dataset_name : Option String) (dataset_timestamp : Option Timestamp)
    (tags : Option Tags) : LogDataframeResult :=
  let r := get_whylogs_session ctx
  let dsName := pyOrStr dataset_name ctx.step_name
  let tags0 := pyOrTags tags
  let tags1 := dictSet tags0 "zenml.step" ctx.step_name
  let tags2 := dictSetdefault tags1 "datasetId" dsName
  let callerAfter : Option Tags :=
    match tags with
    | none => none
    | some t => if t.isEmpty then some t else some tags2
  { ctx := r.ctx
    profile :=
      { session := r.session
        dataset_name := dsName
        dataset_timestamp := dataset_timestamp
        tags := tags2
        data := df }
    callerTags := callerAfter }

/-! ### Lookup lemmas for the Python-dict operations -/

theorem dictGet_dictSet_self (d : Tags) (k v : String) :
    dictGet (dictSet d k v) k = some v := by
  induction d with
  | nil => simp [dictGet, dictSet]
  | cons p rest ih =>
    obtain ⟨k0, v0⟩ := p
    by_cases hk : k0 = k
    · simp [dictSet, dictGet, hk]
    · simp [dictSet, dictGet, hk, ih]

theorem dictGet_dictSet_ne (d : Tags) (k v k1 : String) (hk : k1 ≠ k) :
    dictGet (dictSet d k v) k1 = dictGet d k1 := by
  induction d with
  | nil => simp [dictGet, dictSet, Ne.symm hk]
  | cons p rest ih =>
    obtain ⟨k0, v0⟩ := p
    by_cases h0 : k0 = k
    · subst h0
      simp [dictSet, dictGet, Ne.symm hk]
    · simp [dictSet, dictGet, h0, ih]

theorem dictGet_dictSetdefault_self (d : Tags) (k v : String) :
    dictGet (dictSetdefault d k v) k = some ((dictGet d k).getD v) := by
  induction d with
  | nil => simp [dictGet, dictSetdefault]
  | cons p rest ih =>
    obtain ⟨k0, v0⟩ := p
    by_cases hk : k0 = k
    · simp [dictSetdefault, dictGet, hk]
    · simp [dictSetdefault, dictGet, hk, ih]

theorem dictGet_dictSetdefault_ne (d : Tags) (k v k1 : String) (hk : k1 ≠ k) :
    dictGet (dictSetdefault d k v) k1 = dictGet d k1 := by
  induction d with
  | nil => simp [dictGet, dictSetdefault, Ne.symm hk]
  | cons p rest ih =>
    obtain ⟨k0, v0⟩ := p
    by_cases h0 : k0 = k
    · simp [dictSetdefault, dictGet, h0, ih]
    · simp [dictSetdefault, dictGet, h0, ih]

/-! ### Concrete sample inputs used by witnesses and counterexamples -/

/-- A zero-argument entrypoint named `extract_batch`. -/
def fPlain : Func :=
  { name := "extract_batch", module := "pipe.steps", doc := none,
    params := [], body := 0 }

/-- An entrypoint whose first parameter is typed as the resource-scoped
context capability (`StepContext`-derived). -/
def fCtx : Func :=
  { name := "profile_step", module := "pipe.steps", doc := none,
    params := [ParamType.stepContext, ParamType.other], body := 1 }

/-- A fresh `WhylogsContext` for a step named `ingest`. -/
def ctxIngest : WhylogsContext := { step_name := "ingest", _session := none }

/-- A sample dataframe. -/
def dfSample : DataFrame := { raw := 0 }

/-! ### Claims about the step factory -/

/-- C1: if `enable_cache` is explicitly given to the step factory, the
resulting step's caching policy equals that value verbatim; if it is
not given, the policy defaults to disabled when the entrypoint declares
a parameter typed as (or derived from) the resource-scoped context
capability, and to enabled otherwise. -/
theorem step_caching_policy (func : Func) (cfg : StepConfig) (b : Bool) :
    (cfg.enable_cache = some b →
      (applyStepResult (step none cfg) func).caching_policy = b) ∧
    (cfg.enable_cache = none →
      func.params.contains ParamType.stepContext = true →
      (applyStepResult (step none cfg) func).caching_policy = false) ∧
    (cfg.enable_cache = none →
      func.params.contains ParamType.stepContext = false →
      (applyStepResult (step none cfg) func).caching_policy = true) := by
  refine ⟨fun h => ?_, fun h hc => ?_, fun h hc => ?_⟩
  · simp [applyStepResult, step, inner_decorator, resolve_caching_policy, h]
  · simp [applyStepResult, step, inner_decorator, resolve_caching_policy, h]
    simpa using hc
  · simp [applyStepResult, step, inner_decorator, resolve_caching_policy, h]
    simpa using hc

/-- Witness for C1 at concrete inputs: explicit `enable_cache=False` on a
context-free entrypoint is kept verbatim; with `enable_cache` unset, a
context-typed entrypoint gets caching disabled and a zero-argument
entrypoint gets caching enabled. -/
theorem step_caching_policy_witness :
    (applyStepResult (step none
        { defaultStepConfig with enable_cache := some false }) fPlain).caching_policy
      = false ∧
    (applyStepResult (step none defaultStepConfig) fCtx).caching_policy = false ∧
    (applyStepResult (step none defaultStepConfig) fPlain).caching_policy = true :=
  ⟨(step_caching_policy fPlain
      { defaultStepConfig with enable_cache := some false } false).1 rfl,
   (step_caching_policy fCtx defaultStepConfig false).2.1 rfl (by decide),
   (step_caching_policy fPlain defaultStepConfig false).2.2 rfl (by decide)⟩

/-- C6: applying the factory directly to a function and applying it as a
configured builder yield the same step instance for the same effective
arguments. -/
theorem step_factory_paths_equivalent (cfg : StepConfig) (func : Func) :
    applyStepResult (step (some func) cfg) func =
      applyStepResult (step none cfg) func := rfl

/-- C7 counterexample: the claim says the step's name equals the
explicitly passed name whenever one is given, but passing the empty
string as the explicit name yields the function's identifier instead of
the passed value. -/
theorem step_name_empty_string_cex :
    (applyStepResult (step none { defaultStepConfig with name := some "" })
        fPlain).name ≠ "" := by
  decide

/-- C7 amended: the step's name equals the explicitly passed name when a
non-empty name is given, and equals the function's declared identifier
when no name is passed; in particular an entrypoint named
`extract_batch` decorated with no explicit name yields the step name
`extract_batch`. -/
theorem step_name_resolution (func : Func) (cfg : StepConfig) (s : String) :
    (cfg.name = some s → s ≠ "" →
      (applyStepResult (step none cfg) func).name = s) ∧
    (cfg.name = none →
      (applyStepResult (step none cfg) func).name = func.name) ∧
    (applyStepResult (step none defaultStepConfig) fPlain).name
      = "extract_batch" := by
  refine ⟨fun h hs => ?_, fun h => ?_, by decide⟩
  · simp [applyStepResult, step, inner_decorator, pyOrStr, h, hs]
  · simp [applyStepResult, step, inner_decorator, pyOrStr, h]

/-- Witness for C7 (amended) at concrete inputs: an explicit non-empty
name is used verbatim, and with no explicit name the function's
identifier is used. -/
theorem step_name_resolution_witness :
    (applyStepResult (step none { defaultStepConfig with name := some "load" })
        fPlain).name = "load" ∧
    (applyStepResult (step none defaultStepConfig) fPlain).name
      = fPlain.name :=
  ⟨(step_name_resolution fPlain
      { defaultStepConfig with name := some "load" } "load").1 rfl (by decide),
   (step_name_resolution fPlain defaultStepConfig "load").2.1 rfl⟩

/-- C9: building a step definition is pure construction — the entrypoint
is stored verbatim and its runtime behavior is never consumed: changing
the behavior changes nothing in the result except the stored
entrypoint. -/
theorem step_factory_pure (cfg : StepConfig) (func : Func) (b : Nat) :
    (applyStepResult (step (some func) cfg) func).entrypoint = func ∧
    applyStepResult (step (some { func with body := b }) cfg)
        { func with body := b } =
      { applyStepResult (step (some func) cfg) func with
          entrypoint := { func with body := b } } := by
  exact ⟨rfl, rfl⟩

/-- C10: a falsy explicit name behaves like no name at all — the step
factory falls back to the function's identifier on an empty-string name
(so the step name stays non-empty whenever the identifier is), and
`log_dataframe` falls back to the step identity on an empty-string
`dataset_name`. -/
theorem falsy_name_fallback (func : Func) (cfg : StepConfig)
    (ctx : WhylogsContext) (df : DataFrame) (ts : Option Timestamp)
    (tags : Option Tags) :
    ((applyStepResult (step none { cfg with name := some "" }) func).name
      = func.name) ∧
    (func.name ≠ "" →
      (applyStepResult (step none { cfg with name := some "" }) func).name
        ≠ "") ∧
    ((log_dataframe ctx df (some "") ts tags).profile.dataset_name
      = ctx.step_name) := by
  refine ⟨?_, fun h => ?_, ?_⟩
  · simp [applyStepResult, step, inner_decorator, pyOrStr]
  · simpa [applyStepResult, step, inner_decorator, pyOrStr] using h
  · simp [log_dataframe, pyOrStr]

/-- Witness for C10 at concrete inputs. -/
theorem falsy_name_fallback_witness :
    ((applyStepResult (step none { defaultStepConfig with name := some "" })
        fPlain).name = fPlain.name) ∧
    ((applyStepResult (step none { defaultStepConfig with name := some "" })
        fPlain).name ≠ "") ∧
    ((log_dataframe ctxIngest dfSample (some "") none none).profile.dataset_name
      = ctxIngest.step_name) :=
  ⟨(falsy_name_fallback fPlain defaultStepConfig ctxIngest dfSample none none).1,
   (falsy_name_fallback fPlain defaultStepConfig ctxIngest dfSample none
      none).2.1 (by decide),
   (falsy_name_fallback fPlain defaultStepConfig ctxIngest dfSample none
      none).2.2⟩

/-! ### Claims about the resource-scoped context -/

/-- C2 counterexample: the claim says `log_dataframe` never mutates the
caller-supplied tag mapping, but with the non-empty caller mapping
`{"region": "eu"}` the caller's mapping no longer holds exactly its
original entries after the call — the identity and `datasetId` tags were
written into it in place. -/
theorem log_dataframe_mutates_caller_tags :
    (log_dataframe ctxIngest dfSample none none
        (some [("region", "eu")])).callerTags ≠ some [("region", "eu")] := by
  decide

/-- C2 amended: `log_dataframe` starts from the caller's tags (or a
fresh empty mapping), but it only leaves the caller-supplied mapping
untouched when that mapping is absent or empty; a non-empty
caller-supplied mapping is updated in place, so after the call it holds
the finalized tag entries rather than exactly its original ones. -/
theorem log_dataframe_caller_tags (ctx : WhylogsContext) (df : DataFrame)
    (dataset_name : Option String) (ts : Option Timestamp)
    (tags : Option Tags) :
    (tags = none →
      (log_dataframe ctx df dataset_name ts tags).callerTags = none) ∧
    (∀ t, tags = some t → t = [] →
      (log_dataframe ctx df dataset_name ts tags).callerTags = some t) ∧
    (∀ t, tags = some t → t ≠ [] →
      (log_dataframe ctx df dataset_name ts tags).callerTags =
        some (log_dataframe ctx df dataset_name ts tags).profile.tags) := by
  refine ⟨fun h => ?_, fun t h he => ?_, fun t h hne => ?_⟩
  · simp [log_dataframe, h]
  · subst h he
    simp [log_dataframe]
  · subst h
    simp [log_dataframe, List.isEmpty_iff, hne]

/-- Witness for C2 (amended) at concrete inputs: an absent mapping stays
absent, an empty mapping stays empty, and the non-empty mapping
`{"region": "eu"}` ends up holding the finalized tags. -/
theorem log_dataframe_caller_tags_witness :
    (log_dataframe ctxIngest dfSample none none none).callerTags = none ∧
    (log_dataframe ctxIngest dfSample none none (some [])).callerTags
      = some [] ∧
    (log_dataframe ctxIngest dfSample none none
        (some [("region", "eu")])).callerTags =
      some (log_dataframe ctxIngest dfSample none none
        (some [("region", "eu")])).profile.tags :=
  ⟨(log_dataframe_caller_tags ctxIngest dfSample none none none).1 rfl,
   (log_dataframe_caller_tags ctxIngest dfSample none none (some [])).2.1
     [] rfl rfl,
   (log_dataframe_caller_tags ctxIngest dfSample none none
       (some [("region", "eu")])).2.2 [("region", "eu")] rfl (by decide)⟩

/-- C3: the finalized tag mapping passed to the logger always maps the
identity key `"zenml.step"` to the context's step identity, overwriting
any caller-supplied value for that key. -/
theorem log_dataframe_identity_tag (ctx : WhylogsContext) (df : DataFrame)
    (dataset_name : Option String) (ts : Option Timestamp)
    (tags : Option Tags) :
    dictGet (log_dataframe ctx df dataset_name ts tags).profile.tags
        "zenml.step" = some ctx.step_name := by
  have hne : ("zenml.step" : String) ≠ "datasetId" := by decide
  simp [log_dataframe, dictGet_dictSetdefault_ne _ _ _ _ hne,
    dictGet_dictSet_self]

/-- C4: `dataset_name` defaults to the step identity when absent, and
the `"datasetId"` tag keeps a caller-supplied value and is otherwise set
to the resolved dataset name; on the concrete scenario (step identity
`ingest`, dataset name `orders`, caller tags `{"region": "eu"}`) the
finalized tag mapping is exactly
`{"region": "eu", "zenml.step": "ingest", "datasetId": "orders"}`. -/
theorem log_dataframe_datasetId (ctx : WhylogsContext) (df : DataFrame)
    (dataset_name : Option String) (ts : Option Timestamp)
    (tags : Option Tags) :
    (dataset_name = none →
      (log_dataframe ctx df dataset_name ts tags).profile.dataset_name
        = ctx.step_name) ∧
    (∀ v, dictGet (pyOrTags tags) "datasetId" = some v →
      dictGet (log_dataframe ctx df dataset_name ts tags).profile.tags
          "datasetId" = some v) ∧
    (dictGet (pyOrTags tags) "datasetId" = none →
      dictGet (log_dataframe ctx df dataset_name ts tags).profile.tags
          "datasetId" =
        some (log_dataframe ctx df dataset_name ts tags).profile.dataset_name) ∧
    ((log_dataframe ctxIngest df
        (some "orders") none (some [("region", "eu")])).profile.tags =
      [("region", "eu"), ("zenml.step", "ingest"), ("datasetId", "orders")]) := by
  have hne : ("datasetId" : String) ≠ "zenml.step" := by decide
  refine ⟨fun h => ?_, fun v hv => ?_, fun hv => ?_, ?_⟩
  · simp [log_dataframe, h, pyOrStr]
  · simp [log_dataframe, dictGet_dictSetdefault_self,
      dictGet_dictSet_ne _ _ _ _ hne, hv]
  · simp [log_dataframe, dictGet_dictSetdefault_self,
      dictGet_dictSet_ne _ _ _ _ hne, hv]
  · rfl

/-- Witness for C4 at concrete inputs: an absent `dataset_name` resolves
to the step identity; a caller-supplied `datasetId` tag is preserved; an
absent `datasetId` tag is set to the resolved dataset name. -/
theorem log_dataframe_datasetId_witness :
    ((log_dataframe ctxIngest dfSample none none none).profile.dataset_name
      = ctxIngest.step_name) ∧
    (dictGet (log_dataframe ctxIngest dfSample none none
        (some [("datasetId", "custom")])).profile.tags "datasetId"
      = some "custom") ∧
    (dictGet (log_dataframe ctxIngest dfSample (some "orders") none
        none).profile.tags "datasetId" =
      some (log_dataframe ctxIngest dfSample (some "orders") none
        none).profile.dataset_name) :=
  ⟨(log_dataframe_datasetId ctxIngest dfSample none none none).1 rfl,
   (log_dataframe_datasetId ctxIngest dfSample none none
       (some [("datasetId", "custom")])).2.1 "custom" (by decide),
   (log_dataframe_datasetId ctxIngest dfSample (some "orders") none
       none).2.2.1 (by decide)⟩

/-- C5: per context instance the session transitions from absent to
present at most once — a first call on a fresh context performs exactly
one session construction and stores the session, after which calling
again returns the identical session with zero further constructions and
an unchanged context; on a context whose session is already present the
call returns that very session with zero constructions. -/
theorem get_whylogs_session_memoized (ctx : WhylogsContext) :
    (ctx._session = none →
      (get_whylogs_session ctx).constructions = 1 ∧
      (get_whylogs_session ctx).ctx._session
        = some (get_whylogs_session ctx).session ∧
      get_whylogs_session ((get_whylogs_session ctx).ctx) =
        { session := (get_whylogs_session ctx).session
          ctx := (get_whylogs_session ctx).ctx
          constructions := 0 }) ∧
    (∀ s, ctx._session = some s →
      get_whylogs_session ctx = { session := s, ctx := ctx, constructions := 0 }) := by
  refine ⟨fun h => ?_, fun s h => ?_⟩ <;> simp [get_whylogs_session, h]

/-- Witness for C5 on a fresh concrete context: one construction on the
first call, stored session, and an idempotent second call. -/
theorem get_whylogs_session_memoized_witness :
    (get_whylogs_session ctxIngest).constructions = 1 ∧
    (get_whylogs_session ctxIngest).ctx._session
      = some (get_whylogs_session ctxIngest).session ∧
    get_whylogs_session ((get_whylogs_session ctxIngest).ctx) =
      { session := (get_whylogs_session ctxIngest).session
        ctx := (get_whylogs_session ctxIngest).ctx
        constructions := 0 } :=
  (get_whylogs_session_memoized ctxIngest).1 rfl

/-- C8: when the session is constructed on first access it is
parameterized by the step identity as its project (and, lacking a
pipeline identity, also as its pipeline) and carries an empty writers
list, i.e. no attached output sinks. -/
theorem get_whylogs_session_construction (ctx : WhylogsContext)
    (h : ctx._session = none) :
    (get_whylogs_session ctx).session.project = ctx.step_name ∧
    (get_whylogs_session ctx).session.pipeline = ctx.step_name ∧
    (get_whylogs_session ctx).session.writers = [] := by
  simp [get_whylogs_session, h]

/-- Witness for C8 on a fresh concrete context. -/
theorem get_whylogs_session_construction_witness :
    (get_whylogs_session ctxIngest).session.project = ctxIngest.step_name ∧
    (get_whylogs_session ctxIngest).session.pipeline = ctxIngest.step_name ∧
    (get_whylogs_session ctxIngest).session.writers = [] :=
  get_whylogs_session_construction ctxIngest rfl
